import Mathlib

/-!
Shallow embedding of the `chat_cli` repository's streaming chat client
(`src/chat_cli/client.py`) and tool execution helpers
(`src/chat_cli/tools.py`), with theorems settling the specification
claims about the stream aggregator, the tool-call buffer, the retry
policy, the request builder and argument parsing.

Python `Optional`/duck-typed attributes are modelled with `Option`;
Python string truthiness (`if s:`) is the test `s ≠ ""`; Python dicts
keyed by slot index are modelled as association lists in insertion
order, because CPython dicts preserve insertion order and the source
iterates `tool_buffers.values()` in that order.
-/

namespace ChatCli

/-- Embeds the `_ToolBuffer` dataclass (client.py lines 30-37) with its
field defaults. -/
structure ToolBuffer where
  id : String := ""
  type : String := "function"
  name : String := ""
  arguments : String := ""
deriving Repr, DecidableEq

/-- The `function` sub-object of a streaming tool-call delta: fields read
by `merge_delta` via `getattr(function, ...)`; `none` models an absent
attribute. -/
structure ToolFunctionDelta where
  name : Option String := none
  arguments : Option String := none
deriving Repr, DecidableEq

/-- A streaming tool-call delta as read by `_consume_stream` and
`merge_delta`: `index` models `getattr(tool_delta, "index", 0)` (an
absent attribute defaults to 0 at the use site). -/
structure ToolCallDelta where
  index : Option Int := none
  id : Option String := none
  type : Option String := none
  function : Option ToolFunctionDelta := none
deriving Repr, DecidableEq

/-- Embeds `_ToolBuffer.merge_delta` (client.py lines 39-68), attribute
branch (lines 58-68); the dict branch (lines 43-56) performs the same
per-field updates on string values.  Each of `id`, `type`, `name` is
overwritten when the fragment carries a truthy (non-empty) value;
`arguments` is appended. -/
def ToolBuffer.merge_delta (b : ToolBuffer) (d : ToolCallDelta) : ToolBuffer :=
  let b1 := match d.id with
    | some s => if s = "" then b else { b with id := s }
    | none => b
  let b2 := match d.type with
    | some s => if s = "" then b1 else { b1 with type := s }
    | none => b1
  match d.function with
  | none => b2
  | some f =>
    let b3 := match f.name with
      | some s => if s = "" then b2 else { b2 with name := s }
      | none => b2
    match f.arguments with
    | some s => if s = "" then b3 else { b3 with arguments := b3.arguments ++ s }
    | none => b3

/-- The argument substring a fragment carries: the truthy
`function.arguments` value, or the empty string when absent/empty (the
source skips the append in exactly those cases, which is the same as
appending the empty string). -/
def fragArgs (d : ToolCallDelta) : String :=
  match d.function with
  | none => ""
  | some f => match f.arguments with
    | none => ""
    | some s => s

/-- A delta as carried by a chunk's choice (client.py lines 130-142):
optional text content and an optional list of tool-call deltas
(`getattr(delta, "tool_calls", None) or []`). -/
structure Delta where
  content : Option String := none
  tool_calls : Option (List ToolCallDelta) := none
deriving Repr, DecidableEq

/-- One choice of a streaming chunk: optional delta and optional finish
reason, both read with `getattr(..., None)`. -/
structure Choice where
  delta : Option Delta := none
  finish_reason : Option String := none
deriving Repr, DecidableEq

/-- One streaming chunk (`getattr(chunk, "choices", [])`). -/
structure Chunk where
  choices : List Choice := []
deriving Repr, DecidableEq

/-- A normalized stream event: the dictionaries yielded by
`_consume_stream` and `_yield_from_completion` — either
`{"type": "content", "text": ...}` or the `to_event` record of a
finalized tool buffer. -/
inductive StreamEvent where
  | content (text : String)
  | toolCall (record : ToolBuffer)
deriving Repr, DecidableEq

/-- Whether an event is a content event. -/
def StreamEvent.isContent : StreamEvent → Bool
  | .content _ => true
  | .toolCall _ => false

/-- The tool-buffer slot map `Dict[int, _ToolBuffer]`, kept as an
association list in insertion order (CPython dict iteration order). -/
abbrev Buffers := List (Int × ToolBuffer)

/-- Embeds `tool_buffers.setdefault(index, _ToolBuffer())` followed by
`buffer.merge_delta(tool_delta)` (client.py lines 140-142): an existing
slot is merged in place, a new slot is appended at the end of the
insertion order. -/
def mergeInto (bufs : Buffers) (k : Int) (d : ToolCallDelta) : Buffers :=
  if bufs.any (fun p => p.1 = k) then
    bufs.map (fun p => if p.1 = k then (p.1, p.2.merge_delta d) else p)
  else
    bufs ++ [(k, ToolBuffer.merge_delta {} d)]

/-- Processes one choice of a chunk (client.py lines 129-146): returns
the updated slot map, the content events yielded, and the finish
reasons collected.  A choice whose `delta` is absent is skipped
entirely, including its finish reason (the `continue` on line 132). -/
def processChoice (bufs : Buffers) (c : Choice) :
    Buffers × List StreamEvent × List String :=
  match c.delta with
  | none => (bufs, [], [])
  | some d =>
    let contentEvs : List StreamEvent := match d.content with
      | some s => if s = "" then [] else [.content s]
      | none => []
    let bufs' := (d.tool_calls.getD []).foldl
      (fun bs td => mergeInto bs (td.index.getD 0) td) bufs
    let frs : List String := match c.finish_reason with
      | some r => if r = "" then [] else [r]
      | none => []
    (bufs', contentEvs, frs)

/-- One iteration of the choice loop, threading the slot map and
accumulating events and finish reasons. -/
def chunkStep (acc : Buffers × List StreamEvent × List String) (c : Choice) :
    Buffers × List StreamEvent × List String :=
  let (bs, evs, frs) := acc
  let (bs', evs', frs') := processChoice bs c
  (bs', evs ++ evs', frs ++ frs')

/-- Processes one chunk (client.py lines 125-154): runs the choice loop,
then flushes all buffered tool calls in slot-map iteration order when
some finish reason equals "tool_calls", and reports whether the stream
loop breaks (some truthy finish reason differs from "tool_calls"). -/
def processChunk (bufs : Buffers) (ch : Chunk) :
    Buffers × List StreamEvent × Bool :=
  let (bufs1, evs, frs) := ch.choices.foldl chunkStep (bufs, [], [])
  let flush := frs.any (fun r => r = "tool_calls")
  let bufs2 := if flush then [] else bufs1
  let evs2 := if flush then
      evs ++ bufs1.map (fun p => StreamEvent.toolCall p.2)
    else evs
  (bufs2, evs2, frs.any (fun r => r ≠ "tool_calls"))

/-- Auxiliary stream consumption loop with explicit slot-map state. -/
def consumeAux (bufs : Buffers) : List Chunk → List StreamEvent
  | [] => []
  | ch :: rest =>
    let (bufs', evs, stop) := processChunk bufs ch
    evs ++ (if stop then [] else consumeAux bufs' rest)

/-- Embeds `ChatClient._consume_stream` (client.py lines 122-158) on a
chunk sequence: starts with an empty slot map and folds `processChunk`
until the break condition or exhaustion.  The `finally: close()` is
resource handling with no event-level effect. -/
def consumeStream (chunks : List Chunk) : List StreamEvent :=
  consumeAux [] chunks

/-- Substring containment on character lists: some suffix of `l` starts
with `sub`.  Models Python's `sub in s`. -/
def hasSubList (sub : List Char) : List Char → Bool
  | [] => sub.isEmpty
  | a :: t => sub.isPrefixOf (a :: t) || hasSubList sub t

/-- Models Python's `sub in s` as `strContains s sub`. -/
def strContains (s sub : String) : Bool :=
  hasSubList sub.toList s.toList

/-- Models Python's `str.lower()` on the ASCII range (the keywords the
retry policy searches for are ASCII). -/
def pyLower (s : String) : String :=
  String.mk (s.data.map Char.toLower)

/-- The keyword tuple of `_should_retry_without_stream`
(client.py lines 193-198). -/
def retryKeywords : List String :=
  ["not supported", "unsupported", "does not support",
   "unrecognized request argument"]

/-- Embeds `ChatClient._should_retry_without_stream`
(client.py lines 188-199). -/
def should_retry_without_stream (message : String) : Bool :=
  let lowered := pyLower message
  if ¬ strContains lowered "stream" then false
  else retryKeywords.any (fun k => strContains lowered k)

/-- The `function` object of a non-streaming completion tool call,
read with `getattr(function, ..., "")` (client.py lines 182-183). -/
structure CompletionFunction where
  name : Option String := none
  arguments : Option String := none
deriving Repr, DecidableEq

/-- A full tool call on a non-streaming completion message
(client.py lines 174-186). -/
structure CompletionToolCall where
  id : Option String := none
  type : Option String := none
  function : Option CompletionFunction := none
deriving Repr, DecidableEq

/-- A non-streaming completion message (client.py lines 166-174). -/
structure CompletionMessage where
  content : Option String := none
  tool_calls : Option (List CompletionToolCall) := none
deriving Repr, DecidableEq

/-- One choice of a non-streaming completion. -/
structure CompletionChoice where
  message : Option CompletionMessage := none
deriving Repr, DecidableEq

/-- A non-streaming completion (`getattr(completion, "choices", []) or []`). -/
structure Completion where
  choices : Option (List CompletionChoice) := none
deriving Repr, DecidableEq

/-- The event built for one completion tool call
(client.py lines 176-186): missing attributes fall back to `""`, the
call type to `"function"`, and a missing `function` object yields empty
name and arguments. -/
def completionToolCallEvent (tc : CompletionToolCall) : StreamEvent :=
  .toolCall
    { id := tc.id.getD ""
      type := tc.type.getD "function"
      name := (tc.function.bind CompletionFunction.name).getD ""
      arguments := (tc.function.bind CompletionFunction.arguments).getD "" }

/-- Embeds `ChatClient._yield_from_completion` (client.py lines 164-186):
per choice with a message, the truthy content first, then one event per
tool call in list order. -/
def yield_from_completion (c : Completion) : List StreamEvent :=
  (c.choices.getD []).flatMap fun ch =>
    match ch.message with
    | none => []
    | some m =>
      (match m.content with
        | some s => if s = "" then [] else [StreamEvent.content s]
        | none => []) ++
      (m.tool_calls.getD []).map completionToolCallEvent

/-- The Python type a JSON-Schema primitive maps to in
`_json_type_to_python` (client.py lines 239-249). -/
inductive PyType where
  | pstr | pfloat | pint | pbool | plist | pdict
deriving Repr, DecidableEq

/-- Embeds `ChatClient._json_type_to_python`: `type_name or "string"`
then `mapping.get(..., str)`. -/
def json_type_to_python (type_name : Option String) : PyType :=
  let t := match type_name with
    | none => "string"
    | some s => if s = "" then "string" else s
  if t = "string" then .pstr
  else if t = "number" then .pfloat
  else if t = "integer" then .pint
  else if t = "boolean" then .pbool
  else if t = "array" then .plist
  else if t = "object" then .pdict
  else .pstr

/-- One property definition of a JSON-Schema `properties` map. -/
structure PropertyDef where
  type : Option String := none
  description : Option String := none
deriving Repr, DecidableEq

/-- The JSON-Schema-like parameter object: `properties` in insertion
order and the `required` name list. -/
structure ParamSchema where
  properties : List (String × PropertyDef) := []
  required : List String := []
deriving Repr, DecidableEq

/-- One field of the generated pydantic argument model:
`required = true` models the `...` default (mandatory), `required =
false` the `None` default (optional/absent). -/
structure FieldSpec where
  name : String
  type : PyType
  required : Bool
  description : Option String := none
deriving Repr, DecidableEq

/-- Embeds `ChatClient._schema_to_model` (client.py lines 219-237) as
the field list of the created model: one field per schema property,
with the `_unused` optional placeholder synthesized when the list would
be empty (line 233-234, type `Optional[str]`, default `None`). -/
def schema_to_model_fields (schema : ParamSchema) : List FieldSpec :=
  let fields := schema.properties.map fun p =>
    { name := p.1
      type := json_type_to_python p.2.type
      required := schema.required.contains p.1
      description := p.2.description }
  if fields = [] then
    [{ name := "_unused", type := .pstr, required := false, description := none }]
  else fields

/-- The `function` member of a caller-supplied tool specification dict. -/
structure FunctionSpec where
  name : Option String := none
  description : Option String := none
  parameters : Option ParamSchema := none
deriving Repr, DecidableEq

/-- A caller-supplied tool specification dict (`{"type": ...,
"function": {...}}`). -/
structure ToolSpec where
  type : Option String := none
  function : Option FunctionSpec := none
deriving Repr, DecidableEq

/-- The data handed to `pydantic_function_tool` for one prepared tool:
name, description, generated model name (`f"ToolArgs_{name}"`) and the
model's fields. -/
structure WireTool where
  name : String
  description : String
  modelName : String
  fields : List FieldSpec
deriving Repr, DecidableEq

/-- Prepares one tool spec (body of the loop in
`ChatClient._prepare_tools`, client.py lines 206-216): specs whose
`type` is not `"function"` or whose function name is missing/empty are
skipped (`none`). -/
def prepareOneTool (tool : ToolSpec) : Option WireTool :=
  if tool.type ≠ some "function" then none
  else
    let f := tool.function.getD {}
    match f.name with
    | none => none
    | some n =>
      if n = "" then none
      else
        let schema := f.parameters.getD {}
        some { name := n
               description := f.description.getD ""
               modelName := "ToolArgs_" ++ n
               fields := schema_to_model_fields schema }

/-- Embeds `ChatClient._prepare_tools` (client.py lines 201-217):
`if not tools: return []` (absent or empty list), then the skip/prepare
loop. -/
def prepare_tools (tools : Option (List ToolSpec)) : List WireTool :=
  match tools with
  | none => []
  | some ts => if ts = [] then [] else ts.filterMap prepareOneTool

/-- A transport fault raised while opening or consuming the streaming
call: `openai` models an `OpenAIError` (client.py line 114), `other`
any other `Exception` (line 119); each carries `str(exc)`. -/
inductive Fault where
  | openai (msg : String)
  | other (msg : String)
deriving Repr, DecidableEq

/-- The behaviour of one streaming attempt: either the transport
delivers the whole chunk sequence, or it raises a fault after
delivering a prefix of chunks (a fault on open is `fault [] f`). -/
inductive StreamFetch where
  | ok (chunks : List Chunk)
  | fault (delivered : List Chunk) (f : Fault)
deriving Repr, DecidableEq

/-- Like `consumeAux` but also reports whether the loop broke on a
non-"tool_calls" finish reason before exhausting the input: when it
broke, the generator never pulls the next chunk, so a fault queued
after the delivered prefix is never raised. -/
def consumeUntilBreak (bufs : Buffers) : List Chunk → List StreamEvent × Bool
  | [] => ([], false)
  | ch :: rest =>
    let (bufs', evs, stop) := processChunk bufs ch
    if stop then (evs, true)
    else
      let (evs', broke) := consumeUntilBreak bufs' rest
      (evs ++ evs', broke)

/-- Outcome of one `stream_chat` call: the events yielded, plus how it
ended — normally, with an `APIError` (client.py lines 118 and 120), or
with a fault raised inside the `except` handler propagating unwrapped
(a fault of the single non-streaming retry is not re-caught by the same
`try`). -/
inductive ChatOutcome where
  | success (events : List StreamEvent)
  | apiError (events : List StreamEvent) (msg : String)
  | rawFault (events : List StreamEvent) (f : Fault)
deriving Repr, DecidableEq

/-- A record of the calls `stream_chat` issued to the transport:
`(true, req)` is the streaming call, `(false, req)` the non-streaming
retry, in issue order. -/
abbrev CallLog (ρ : Type) := List (Bool × ρ)

/-- Embeds the fault handling of `ChatClient.stream_chat`
(client.py lines 111-120) over an abstract request type `ρ`:
`fetch` is the streaming attempt for a request, `retryFetch` the
non-streaming attempt (`_non_stream_completion`, itself fallible).
Returns the outcome together with the log of transport calls issued. -/
def stream_chat (req : ρ) (fetch : ρ → StreamFetch)
    (retryFetch : ρ → Except Fault Completion) :
    ChatOutcome × CallLog ρ :=
  match fetch req with
  | .ok chunks => (.success (consumeStream chunks), [(true, req)])
  | .fault delivered f =>
    let (evs, broke) := consumeUntilBreak [] delivered
    if broke then (.success evs, [(true, req)])
    else
      match f with
      | .openai msg =>
        if should_retry_without_stream msg then
          match retryFetch req with
          | .ok comp =>
            (.success (evs ++ yield_from_completion comp),
             [(true, req), (false, req)])
          | .error f' => (.rawFault evs f', [(true, req), (false, req)])
        else (.apiError evs msg, [(true, req)])
      | .other msg => (.apiError evs msg, [(true, req)])

/-- JSON values as decoded by `json.loads` (tools.py). -/
inductive Json where
  | null
  | bool (b : Bool)
  | num (n : Int)
  | str (s : String)
  | arr (elems : List Json)
  | obj (fields : List (String × Json))

/-- Whether a decoded JSON value is an object (a Python `dict`). -/
def Json.isObj : Json → Bool
  | .obj _ => true
  | _ => false

/-- Models `arguments.get(key)` on a JSON-decoded Python dict: the last
binding wins (as in `json.loads`), and a JSON `null` is Python `None`,
indistinguishable from an absent key. -/
def getArg (fields : List (String × Json)) (key : String) : Option Json :=
  match (fields.reverse.find? (fun p => p.1 = key)).map Prod.snd with
  | some .null => none
  | v => v

/-- Models `not arguments_json.strip()` (tools.py line 99): the string
is blank when every character is whitespace (including when empty). -/
def pyBlank (s : String) : Bool :=
  s.data.all Char.isWhitespace

/-- Embeds `_parse_arguments` (tools.py lines 98-107), with `json.loads`
supplied as the external decoder `loads` (`none` models a
`JSONDecodeError`): a blank string is the empty dict; a decode failure
or a non-dict decode raises a `ToolError`, modelled as `.error`. -/
def parse_arguments (loads : String → Option Json) (arguments_json : String) :
    Except String (List (String × Json)) :=
  if pyBlank arguments_json then .ok []
  else
    match loads arguments_json with
    | none => .error "Invalid tool arguments"
    | some (.obj fields) => .ok fields
    | some _ => .error "Tool arguments must be an object"

/-- The environment `execute_tool` runs in: the external JSON decoder
and the clock lookup `_current_time` (tools.py lines 110-123), which
touches the system clock, timezone database and the year-override file
and may itself raise a `ToolError`; it receives the raw `timezone`
argument value. -/
structure ToolEnv where
  loads : String → Option Json
  currentTime : Option Json → Except String (String × String)

/-- Embeds `_register_farewell` (tools.py lines 168-177): a non-string,
non-null `note` raises a `ToolError`; otherwise the farewell flag is
set and the payload carries the note when truthy. -/
def register_farewell (fields : List (String × Json)) :
    Except String (Json × Bool) :=
  match getArg fields "note" with
  | some (.str s) =>
    if s = "" then .ok (.obj [("farewell_registered", .bool true)], true)
    else .ok (.obj [("farewell_registered", .bool true), ("note", .str s)], true)
  | some _ => .error "note must be a string if provided"
  | none => .ok (.obj [("farewell_registered", .bool true)], true)

/-- Embeds `execute_tool` (tools.py lines 81-95): dispatch on the tool
name, parse the arguments, run the tool.  The returned pair is the JSON
payload (serialized by `json.dumps` in the source) and the new value of
the process-wide farewell flag `st`. -/
def execute_tool (env : ToolEnv) (st : Bool) (name arguments_json : String) :
    Except String (Json × Bool) :=
  if name = "get_current_time" then
    match parse_arguments env.loads arguments_json with
    | .error e => .error e
    | .ok fields =>
      match env.currentTime (getArg fields "timezone") with
      | .error e => .error e
      | .ok (t, tz) =>
        .ok (.obj [("current_time", .str t), ("timezone", .str tz)], st)
  else if name = "register_farewell" then
    match parse_arguments env.loads arguments_json with
    | .error e => .error e
    | .ok fields => register_farewell fields
  else .error ("Unknown tool: " ++ name)

/-- Whether an `Except` result is an error. -/
def exceptIsError : Except String α → Bool
  | .error _ => true
  | .ok _ => false

/-- Restates the spec's rejection condition for tool arguments: the
string is not blank and either fails to decode or decodes to a
non-object.  Written from the claim's words, to be compared with
`parse_arguments`. -/
def specArgumentRejection (loads : String → Option Json) (s : String) : Bool :=
  !pyBlank s &&
    (match loads s with
      | none => true
      | some j => !j.isObj)

/-- The last-truthy-value-wins update of a string field of the buffer. -/
def updateField (old : String) (incoming : Option String) : String :=
  match incoming with
  | some s => if s = "" then old else s
  | none => old

/-- Two tool buffers agreeing on every field are equal. -/
theorem ToolBuffer.eq_of_fields {x y : ToolBuffer}
    (h1 : x.id = y.id) (h2 : x.type = y.type)
    (h3 : x.name = y.name) (h4 : x.arguments = y.arguments) : x = y := by
  cases x; cases y; simp_all

/-- Merging a fragment appends exactly its argument substring. -/
theorem merge_delta_arguments (b : ToolBuffer) (d : ToolCallDelta) :
    (b.merge_delta d).arguments = b.arguments ++ fragArgs d := by
  obtain ⟨idx, i, ty, fn⟩ := d
  cases fn with
  | none =>
    cases i <;> cases ty <;>
      simp only [ToolBuffer.merge_delta, fragArgs] <;>
      (repeat' split) <;> simp_all
  | some f =>
    obtain ⟨fname, fargs⟩ := f
    cases i <;> cases ty <;> cases fname <;> cases fargs <;>
      simp only [ToolBuffer.merge_delta, fragArgs] <;>
      (repeat' split) <;> simp_all

/-- Merging a fragment applies a last-truthy-wins update to `id`. -/
theorem merge_delta_id (b : ToolBuffer) (d : ToolCallDelta) :
    (b.merge_delta d).id = updateField b.id d.id := by
  obtain ⟨idx, i, ty, fn⟩ := d
  cases fn with
  | none =>
    cases i <;> cases ty <;>
      simp only [ToolBuffer.merge_delta, updateField] <;>
      (repeat' split) <;> simp_all
  | some f =>
    obtain ⟨fname, fargs⟩ := f
    cases i <;> cases ty <;> cases fname <;> cases fargs <;>
      simp only [ToolBuffer.merge_delta, updateField] <;>
      (repeat' split) <;> simp_all

/-- Merging a fragment applies a last-truthy-wins update to `type`. -/
theorem merge_delta_type (b : ToolBuffer) (d : ToolCallDelta) :
    (b.merge_delta d).type = updateField b.type d.type := by
  obtain ⟨idx, i, ty, fn⟩ := d
  cases fn with
  | none =>
    cases i <;> cases ty <;>
      simp only [ToolBuffer.merge_delta, updateField] <;>
      (repeat' split) <;> simp_all
  | some f =>
    obtain ⟨fname, fargs⟩ := f
    cases i <;> cases ty <;> cases fname <;> cases fargs <;>
      simp only [ToolBuffer.merge_delta, updateField] <;>
      (repeat' split) <;> simp_all

/-- Merging a fragment applies a last-truthy-wins update to `name`, drawn
from the fragment's `function.name`. -/
theorem merge_delta_name (b : ToolBuffer) (d : ToolCallDelta) :
    (b.merge_delta d).name =
      updateField b.name (d.function.bind ToolFunctionDelta.name) := by
  obtain ⟨idx, i, ty, fn⟩ := d
  cases fn with
  | none =>
    cases i <;> cases ty <;>
      simp only [ToolBuffer.merge_delta, updateField, Option.bind] <;>
      (repeat' split) <;> simp_all
  | some f =>
    obtain ⟨fname, fargs⟩ := f
    cases i <;> cases ty <;> cases fname <;> cases fargs <;>
      simp only [ToolBuffer.merge_delta, updateField, Option.bind] <;>
      (repeat' split) <;> simp_all

/-- Repeating an identical `updateField` update changes nothing. -/
theorem updateField_idem (old : String) (v : Option String) :
    updateField (updateField old v) v = updateField old v := by
  unfold updateField
  cases v with
  | none => rfl
  | some s => by_cases h : s = "" <;> simp [h]

/-- The truthy content fragments one choice contributes. -/
def choiceContents (c : Choice) : List String :=
  match c.delta with
  | none => []
  | some d =>
    match d.content with
    | some s => if s = "" then [] else [s]
    | none => []

/-- The truthy finish reasons one choice contributes (none when the
choice has no delta, matching the `continue`). -/
def choiceReasons (c : Choice) : List String :=
  match c.delta with
  | none => []
  | some _ =>
    match c.finish_reason with
    | some r => if r = "" then [] else [r]
    | none => []

/-- The slot-map effect of one choice's tool-call deltas. -/
def mergeChoice (bufs : Buffers) (c : Choice) : Buffers :=
  match c.delta with
  | none => bufs
  | some d =>
    (d.tool_calls.getD []).foldl
      (fun bs td => mergeInto bs (td.index.getD 0) td) bufs

/-- All truthy content fragments of a chunk, in arrival order. -/
def chunkContents (ch : Chunk) : List String :=
  ch.choices.flatMap choiceContents

/-- All truthy finish reasons collected from a chunk. -/
def chunkReasons (ch : Chunk) : List String :=
  ch.choices.flatMap choiceReasons

/-- The slot map after a chunk's tool-call deltas are merged. -/
def mergeChunk (bufs : Buffers) (ch : Chunk) : Buffers :=
  ch.choices.foldl mergeChoice bufs

/-- Whether a chunk triggers the tool-call flush. -/
def chunkFlush (ch : Chunk) : Bool :=
  (chunkReasons ch).any (fun r => r = "tool_calls")

/-- Whether a chunk makes the stream loop break. -/
def chunkStops (ch : Chunk) : Bool :=
  (chunkReasons ch).any (fun r => r ≠ "tool_calls")

/-- Processing one choice decomposes into its slot-map effect, its content
events and its collected finish reasons. -/
theorem processChoice_eq (bufs : Buffers) (c : Choice) :
    processChoice bufs c =
      (mergeChoice bufs c, (choiceContents c).map StreamEvent.content,
       choiceReasons c) := by
  obtain ⟨del, fr⟩ := c
  cases del with
  | none => rfl
  | some d =>
    obtain ⟨ct, tcs⟩ := d
    unfold processChoice mergeChoice choiceContents choiceReasons
    cases ct <;> cases fr <;> simp <;> (repeat' split) <;> simp

/-- The choice loop decomposes into the three independent traversals. -/
theorem chunkFold_eq (cs : List Choice) (bufs : Buffers)
    (evs : List StreamEvent) (frs : List String) :
    cs.foldl chunkStep (bufs, evs, frs) =
      (cs.foldl mergeChoice bufs,
       evs ++ (cs.flatMap choiceContents).map StreamEvent.content,
       frs ++ cs.flatMap choiceReasons) := by
  induction cs generalizing bufs evs frs with
  | nil => simp
  | cons c cs ih =>
    simp only [List.foldl_cons, chunkStep, processChoice_eq, ih,
      List.flatMap_cons, List.map_append, List.append_assoc]

/-- Processing one chunk decomposes into the chunk traversals: the new slot
map is empty exactly when the chunk flushes, the events are the content
events followed (on a flush) by one toolCall event per buffered slot in
slot-map order, and the break flag is `chunkStops`. -/
theorem processChunk_eq (bufs : Buffers) (ch : Chunk) :
    processChunk bufs ch =
      (if chunkFlush ch then [] else mergeChunk bufs ch,
       (chunkContents ch).map StreamEvent.content ++
         (if chunkFlush ch then
            (mergeChunk bufs ch).map (fun p => StreamEvent.toolCall p.2)
          else []),
       chunkStops ch) := by
  unfold processChunk
  rw [chunkFold_eq]
  by_cases h : chunkFlush ch <;>
    simp_all [chunkFlush, chunkStops, chunkContents, chunkReasons,
      mergeChunk] <;>
    (repeat' split) <;> simp_all

/-- The truthy content fragments the stream consumption processes, with
the same early-break semantics as the main loop. -/
def streamContents : List Chunk → List String
  | [] => []
  | ch :: rest =>
    chunkContents ch ++ (if chunkStops ch then [] else streamContents rest)

/-- The finalized buffer records flushed across the whole consumption,
in flush order and, within one flush, slot-map insertion order. -/
def streamFlushes : Buffers → List Chunk → List ToolBuffer
  | _, [] => []
  | bufs, ch :: rest =>
    let merged := mergeChunk bufs ch
    (if chunkFlush ch then merged.map Prod.snd else []) ++
      (if chunkStops ch then []
       else streamFlushes (if chunkFlush ch then [] else merged) rest)

/-- The content events of the consumption are exactly the processed
truthy content fragments, in order. -/
theorem consumeAux_filter_content (chunks : List Chunk) (bufs : Buffers) :
    (consumeAux bufs chunks).filter StreamEvent.isContent =
      (streamContents chunks).map StreamEvent.content := by
  induction chunks generalizing bufs with
  | nil => rfl
  | cons ch rest ih =>
    simp only [consumeAux, processChunk_eq, streamContents]
    by_cases h : chunkStops ch <;>
      by_cases hf : chunkFlush ch <;>
      simp [h, hf, ih, List.filter_append, List.filter_map,
        StreamEvent.isContent, Function.comp_def]

/-- The toolCall events of the consumption are exactly the flushed
buffer records, in order. -/
theorem consumeAux_filter_toolCall (chunks : List Chunk) (bufs : Buffers) :
    (consumeAux bufs chunks).filter (fun e => !e.isContent) =
      (streamFlushes bufs chunks).map StreamEvent.toolCall := by
  induction chunks generalizing bufs with
  | nil => rfl
  | cons ch rest ih =>
    simp only [consumeAux, processChunk_eq, streamFlushes]
    by_cases h : chunkStops ch <;>
      by_cases hf : chunkFlush ch <;>
      simp [h, hf, List.filter_append, List.filter_map,
        StreamEvent.isContent, Function.comp_def] <;>
      exact ih _

/-- Concatenation of a list of strings in order. -/
def concatAll : List String → String
  | [] => ""
  | s :: rest => s ++ concatAll rest

/-- A chunk whose single choice carries two tool-call deltas in
descending slot-index order (slot 1 first, then slot 0) together with a
"tool_calls" finish reason. -/
def outOfOrderChunk : Chunk :=
  { choices := [
      { delta := some { tool_calls := some [
          { index := some 1, function := some { name := some "tool_b" } },
          { index := some 0, function := some { name := some "tool_a" } } ] }
        finish_reason := some "tool_calls" } ] }

/-- C1 (counterexample): when the first deltas arrive in descending
slot-index order, the flush emits the slot-1 buffer before the slot-0
buffer — Python dict insertion order, not ascending index order as the
claim states. -/
theorem flush_not_ascending_counterexample :
    consumeStream [outOfOrderChunk] =
      [StreamEvent.toolCall { name := "tool_b" },
       StreamEvent.toolCall { name := "tool_a" }] ∧
    consumeStream [outOfOrderChunk] ≠
      [StreamEvent.toolCall { name := "tool_a" },
       StreamEvent.toolCall { name := "tool_b" }] := by
  constructor
  · decide
  · decide

/-- C1 (amended): whenever a chunk's collected finish reasons include
"tool_calls", every slot that has received a delta since the last flush
is finalized and emitted as a toolCall event — in slot-creation
(insertion) order, which is ascending index order exactly when first
deltas arrived in ascending index order — after the chunk's content
events, and the slot map is empty afterwards; when no collected reason
is "tool_calls" the chunk emits no toolCall event, and across a whole
consumption the toolCall events are exactly the flushed records. -/
theorem toolCall_flush_insertion_order (bufs : Buffers) (ch : Chunk)
    (chunks : List Chunk) :
    processChunk bufs ch =
      (if chunkFlush ch then [] else mergeChunk bufs ch,
       (chunkContents ch).map StreamEvent.content ++
         (if chunkFlush ch then
            (mergeChunk bufs ch).map (fun p => StreamEvent.toolCall p.2)
          else []),
       chunkStops ch) ∧
    (consumeStream chunks).filter (fun e => !e.isContent) =
      (streamFlushes [] chunks).map StreamEvent.toolCall :=
  ⟨processChunk_eq bufs ch, consumeAux_filter_toolCall chunks []⟩

/-- C2: after merging any sequence of fragments, the buffer's arguments
text is the original text followed by the concatenation, in arrival
order, of the argument substrings the fragments carried. -/
theorem arguments_concatenation (b : ToolBuffer) (ds : List ToolCallDelta) :
    (ds.foldl ToolBuffer.merge_delta b).arguments =
      b.arguments ++ concatAll (ds.map fragArgs) := by
  induction ds generalizing b with
  | nil => simp [concatAll]
  | cons d ds ih =>
    simp only [List.foldl_cons, List.map_cons, concatAll, ih,
      merge_delta_arguments, String.append_assoc]

/-- A fragment carrying a non-empty argument substring. -/
def argumentFragment : ToolCallDelta :=
  { function := some { arguments := some "x" } }

/-- C3 (counterexample): `merge_delta` is not idempotent — merging the
same argument-carrying fragment twice appends its arguments twice. -/
theorem merge_delta_not_idempotent :
    ¬ ((ToolBuffer.merge_delta {} argumentFragment).merge_delta
          argumentFragment =
        ToolBuffer.merge_delta {} argumentFragment) := by
  decide

/-- C3 (amended): merging the same fragment twice in succession leaves
the buffer unchanged provided the fragment carries no (non-empty)
argument substring; `id`, `type` and `name` absorption is idempotent,
only the argument append is not. -/
theorem merge_delta_idempotent_without_arguments (b : ToolBuffer)
    (d : ToolCallDelta) (h : fragArgs d = "") :
    (b.merge_delta d).merge_delta d = b.merge_delta d := by
  apply ToolBuffer.eq_of_fields
  · rw [merge_delta_id, merge_delta_id, updateField_idem]
  · rw [merge_delta_type, merge_delta_type, updateField_idem]
  · rw [merge_delta_name, merge_delta_name, updateField_idem]
  · rw [merge_delta_arguments, h]
    simp

/-- A fragment carrying an id and a function name but no arguments. -/
def headerFragment : ToolCallDelta :=
  { id := some "call_1", function := some { name := some "clock" } }

/-- Witness for the amended C3 at a concrete argument-free fragment. -/
theorem merge_delta_idempotent_without_arguments_witness :
    fragArgs headerFragment = "" ∧
    (ToolBuffer.merge_delta {} headerFragment).merge_delta headerFragment =
      ToolBuffer.merge_delta {} headerFragment :=
  ⟨rfl, merge_delta_idempotent_without_arguments {} headerFragment rfl⟩

/-- C4: the retry predicate holds exactly when the lowercased message
contains "stream" and one of the four keywords; it accepts
"Unrecognized request argument: stream" and rejects "invalid api key"
and "model not found". -/
theorem should_retry_spec (msg : String) :
    should_retry_without_stream msg =
      (strContains (pyLower msg) "stream" &&
        retryKeywords.any (fun k => strContains (pyLower msg) k)) ∧
    should_retry_without_stream "Unrecognized request argument: stream" =
      true ∧
    should_retry_without_stream "invalid api key" = false ∧
    should_retry_without_stream "model not found" = false := by
  refine ⟨?_, by decide, by decide, by decide⟩
  by_cases hc : strContains (pyLower msg) "stream" <;>
    simp [should_retry_without_stream, hc]

/-- Witness for C4 at a concrete message. -/
theorem should_retry_spec_witness :
    should_retry_without_stream "Unrecognized request argument: stream" =
      (strContains (pyLower "Unrecognized request argument: stream")
          "stream" &&
        retryKeywords.any (fun k =>
          strContains (pyLower "Unrecognized request argument: stream") k)) :=
  (should_retry_spec "Unrecognized request argument: stream").1

/-- A single-choice chunk carrying only a content fragment. -/
def contentChunk (s : String) : Chunk :=
  { choices := [{ delta := some { content := some s } }] }

/-- C5: content fragments are emitted unbuffered — the content events of
any consumption are exactly the processed truthy fragments, one event
per fragment with its exact text, in arrival order; the fragments
"Hel", "lo" yield two separate content events in that order. -/
theorem content_unbuffered (chunks : List Chunk) :
    (consumeStream chunks).filter StreamEvent.isContent =
      (streamContents chunks).map StreamEvent.content ∧
    consumeStream [contentChunk "Hel", contentChunk "lo"] =
      [StreamEvent.content "Hel", StreamEvent.content "lo"] :=
  ⟨consumeAux_filter_content chunks [], by decide⟩

/-- A one-choice completion response with the given content and tool
calls. -/
def oneChoiceCompletion (c : Option String)
    (tcs : Option (List CompletionToolCall)) : Completion :=
  { choices := some [{ message := some { content := c, tool_calls := tcs } }] }

/-- C6: the non-streaming fallback adapter emits, per choice message,
the non-empty content as one content event first, then one toolCall
event per tool call in the original list order: one content field and
two tool calls yield exactly those three events. -/
theorem completion_event_order (c : String) (t1 t2 : CompletionToolCall)
    (h : c ≠ "") :
    yield_from_completion (oneChoiceCompletion (some c) (some [t1, t2])) =
      [StreamEvent.content c, completionToolCallEvent t1,
       completionToolCallEvent t2] := by
  simp [yield_from_completion, oneChoiceCompletion, h]

/-- Witness for C6 at a concrete content string and two tool calls. -/
theorem completion_event_order_witness :
    ("Hi" : String) ≠ "" ∧
    yield_from_completion
        (oneChoiceCompletion (some "Hi")
          (some [{ id := some "a" }, { id := some "b" }])) =
      [StreamEvent.content "Hi",
       completionToolCallEvent { id := some "a" },
       completionToolCallEvent { id := some "b" }] :=
  ⟨by decide,
   completion_event_order "Hi" { id := some "a" } { id := some "b" }
     (by decide)⟩

/-- A tool spec of kind "function" with the given name, description and
parameter schema. -/
def functionToolSpec (n : Option String) (d : Option String)
    (sch : Option ParamSchema) : ToolSpec :=
  { type := some "function"
    function := some { name := n, description := d, parameters := sch } }

/-- The synthesized `_unused` optional placeholder field. -/
def placeholderField : FieldSpec :=
  { name := "_unused", type := PyType.pstr, required := false,
    description := none }

/-- C7: a tool spec of kind "function" with a non-empty name whose
schema has no properties still yields a wire tool whose parameter model
has exactly the one optional `_unused` placeholder field with a null
default; a spec whose kind is not "function" and a spec without a name
are silently skipped. -/
theorem prepare_tools_placeholder (n : String) (d : Option String)
    (sch : ParamSchema) (t : ToolSpec)
    (hn : n ≠ "") (hp : sch.properties = []) (hr : sch.required = [])
    (ht : t.type ≠ some "function") :
    prepare_tools (some [functionToolSpec (some n) d (some sch)]) =
      [{ name := n, description := d.getD "",
         modelName := "ToolArgs_" ++ n,
         fields := [placeholderField] }] ∧
    prepareOneTool t = none ∧
    prepare_tools (some [functionToolSpec none d (some sch)]) = [] := by
  refine ⟨?_, ?_, ?_⟩
  · simp [prepare_tools, prepareOneTool, functionToolSpec,
      schema_to_model_fields, placeholderField, hn, hp]
  · simp [prepareOneTool, ht]
  · simp [prepare_tools, prepareOneTool, functionToolSpec]

/-- Witness for C7 at a concrete empty-schema spec and a skipped spec. -/
theorem prepare_tools_placeholder_witness :
    prepare_tools (some [functionToolSpec (some "ping") none (some {})]) =
      [{ name := "ping", description := "",
         modelName := "ToolArgs_ping",
         fields := [placeholderField] }] ∧
    prepareOneTool { type := some "retrieval" } = none ∧
    prepare_tools (some [functionToolSpec none none (some {})]) = [] := by
  have h := prepare_tools_placeholder "ping" none {}
    { type := some "retrieval" } (by decide) rfl rfl (by decide)
  simpa using h

/-- Restates the spec's fault contract (written from the claim's words,
to be compared with `stream_chat`): a retryable fault leads to exactly
one non-streaming retry on the identical request, whose own fault
propagates without a further retry; any other fault becomes an
`APIError` carrying the original message, with no retry. -/
def specFaultBehaviour {ρ : Type} (req : ρ)
    (retryFetch : ρ → Except Fault Completion)
    (evs : List StreamEvent) : Fault → ChatOutcome × CallLog ρ
  | .openai msg =>
    if should_retry_without_stream msg then
      match retryFetch req with
      | .ok comp =>
        (.success (evs ++ yield_from_completion comp),
         [(true, req), (false, req)])
      | .error f' => (.rawFault evs f', [(true, req), (false, req)])
    else (.apiError evs msg, [(true, req)])
  | .other msg => (.apiError evs msg, [(true, req)])

/-- C8: when the streaming attempt raises a fault after delivering
chunks the consumer had not already broken on, the client behaves as
follows — an `OpenAIError` whose message the retry predicate accepts
triggers exactly one non-streaming retry with the identical request
(the call log is the streaming call then one non-streaming call, both
on `req`), whose own fault propagates unwrapped rather than being
retried again; any other fault is re-raised as an `APIError` carrying
the original message, with no retry. -/
theorem stream_chat_retry_policy {ρ : Type} (req : ρ)
    (fetch : ρ → StreamFetch) (retryFetch : ρ → Except Fault Completion)
    (delivered : List Chunk) (f : Fault)
    (hf : fetch req = .fault delivered f)
    (hnb : (consumeUntilBreak [] delivered).2 = false) :
    stream_chat req fetch retryFetch =
      specFaultBehaviour req retryFetch (consumeUntilBreak [] delivered).1
        f := by
  rcases hp : consumeUntilBreak [] delivered with ⟨evs, broke⟩
  rw [hp] at hnb
  simp only at hnb
  subst hnb
  cases f <;> simp [stream_chat, hf, hp, specFaultBehaviour]

/-- Witness for C8: a retryable fault on open followed by a successful
non-streaming retry. -/
theorem stream_chat_retry_policy_witness :
    stream_chat 0
        (fun _ => StreamFetch.fault [] (Fault.openai "stream unsupported"))
        (fun _ => Except.ok ({} : Completion)) =
      (ChatOutcome.success [], [(true, 0), (false, 0)]) := by
  have h := stream_chat_retry_policy 0
    (fun _ => StreamFetch.fault [] (Fault.openai "stream unsupported"))
    (fun _ => Except.ok ({} : Completion)) [] (Fault.openai "stream unsupported")
    rfl rfl
  rw [h]
  decide

/-- A concrete environment for the tool-execution witness: no string
decodes, and the clock lookup always succeeds in UTC. -/
def sampleToolEnv : ToolEnv :=
  { loads := fun _ => none
    currentTime := fun _ => .ok ("2024-01-01T00:00:00+00:00", "UTC") }

/-- A single-choice chunk carrying exactly two tool-call deltas and no
content or finish reason. -/
def twoDeltaChunk (d1 d2 : ToolCallDelta) : Chunk :=
  { choices := [{ delta := some { tool_calls := some [d1, d2] } }] }

/-- C9: a tool-call delta carrying no slot index is merged into slot 0,
so two index-less deltas in one turn accumulate into one buffer. -/
theorem missing_index_defaults_to_zero (d1 d2 : ToolCallDelta)
    (h1 : d1.index = none) (h2 : d2.index = none) :
    processChunk [] (twoDeltaChunk d1 d2) =
      ([(0, (ToolBuffer.merge_delta {} d1).merge_delta d2)], [], false) := by
  simp [processChunk, chunkStep, processChoice, mergeInto, twoDeltaChunk,
    h1, h2]

/-- Witness for C9 at two concrete index-less deltas. -/
theorem missing_index_defaults_to_zero_witness :
    processChunk [] (twoDeltaChunk headerFragment argumentFragment) =
      ([(0, (ToolBuffer.merge_delta {} headerFragment).merge_delta
          argumentFragment)], [], false) :=
  missing_index_defaults_to_zero headerFragment argumentFragment rfl rfl

/-- C10: a blank (empty or whitespace-only) arguments string parses to
the empty object, so both known tools run on it — `get_current_time`
succeeds whenever the clock environment does (with no timezone
requested), and `register_farewell` succeeds and sets the flag; an
invalid-arguments `ToolError` arises exactly for non-blank strings that
fail to decode or decode to a non-object. -/
theorem blank_arguments_empty_object (env : ToolEnv) (st : Bool)
    (s s2 : String) (t z : String)
    (hs : pyBlank s = true)
    (henv : env.currentTime none = .ok (t, z)) :
    parse_arguments env.loads s = .ok [] ∧
    execute_tool env st "get_current_time" s =
      .ok (.obj [("current_time", .str t), ("timezone", .str z)], st) ∧
    execute_tool env st "register_farewell" s =
      .ok (.obj [("farewell_registered", .bool true)], true) ∧
    exceptIsError (parse_arguments env.loads s2) =
      specArgumentRejection env.loads s2 := by
  have hp : parse_arguments env.loads s = .ok [] := by
    simp [parse_arguments, hs]
  refine ⟨hp, ?_, ?_, ?_⟩
  · simp [execute_tool, hp, getArg, henv]
  · simp [execute_tool, hp, register_farewell, getArg]
  · unfold parse_arguments specArgumentRejection exceptIsError
    by_cases h2 : pyBlank s2
    · simp [h2]
    · cases hl : env.loads s2 with
      | none => simp [h2, hl]
      | some j => cases j <;> simp [h2, hl, Json.isObj]

/-- Witness for C10 at a whitespace-only arguments string and a
non-decodable one, in a concrete environment. -/
theorem blank_arguments_empty_object_witness :
    pyBlank " " = true ∧
    sampleToolEnv.currentTime none =
      .ok ("2024-01-01T00:00:00+00:00", "UTC") ∧
    parse_arguments sampleToolEnv.loads " " = .ok [] ∧
    execute_tool sampleToolEnv false "get_current_time" " " =
      .ok (.obj [("current_time", .str "2024-01-01T00:00:00+00:00"),
                 ("timezone", .str "UTC")], false) ∧
    execute_tool sampleToolEnv false "register_farewell" " " =
      .ok (.obj [("farewell_registered", .bool true)], true) ∧
    exceptIsError (parse_arguments sampleToolEnv.loads "x") =
      specArgumentRejection sampleToolEnv.loads "x" := by
  have hs : pyBlank " " = true := by decide
  have h := blank_arguments_empty_object sampleToolEnv false " " "x"
    "2024-01-01T00:00:00+00:00" "UTC" hs rfl
  exact ⟨hs, rfl, h.1, h.2.1, h.2.2.1, h.2.2.2⟩

end ChatCli
